import Mathlib

/-!
# TradingView DCA bot — verification of the strategy core

Shallow embedding of the DCA strategy engine of the `hbiblia/TradingView`
repository (`src/strategy/dca.rs`, `src/main.rs`, `src/app.rs`,
`src/config.rs`, `src/models/order.rs`) and proofs about it.

Conventions of the embedding:
* `f64` values are embedded as `ℚ` (the claims under study only exercise
  exact decimal arithmetic and comparisons, where `f64` and `ℚ` agree);
  the sentinel `f64::MAX` is the exact rational `(2^53 - 1) * 2^971`.
* `DateTime<Utc>` instants are embedded as `ℤ` (Unix seconds);
  `chrono`'s `num_minutes`/`num_seconds` become truncated division.
* `u32`/`u64`/`usize` counters are embedded as `ℕ`.
* Fallible deserialization returns `Option`.
-/

namespace TradingView

/-- `config.rs`: strategy direction (`Direction`). -/
inductive Direction where
  | long
  | short
deriving DecidableEq, Repr

/-- `config.rs`: `Direction::flip`. -/
def Direction.flip : Direction → Direction
  | .long => .short
  | .short => .long

/-- `dca.rs`: lifecycle state of a slot (`DcaState`). -/
inductive DcaState where
  | idle
  | running
  | takeProfitReached
  | stopLossReached
  | maxOrdersReached
  | error (msg : String)
deriving DecidableEq, Repr

/-- `dca.rs`: `DcaState::is_active` (`*self == DcaState::Running`). -/
def DcaState.is_active : DcaState → Bool
  | .running => true
  | _ => false

/-- `models/order.rs`: one executed DCA entry (`DcaTrade`). -/
structure DcaTrade where
  order_id : ℕ
  buy_price : ℚ
  quantity : ℚ
  cost : ℚ
  timestamp : ℤ
deriving DecidableEq, Repr

/-- `config.rs`: the per-strategy configuration (`DcaConfig`), without the
API-transport fields the decision logic never reads. -/
structure DcaConfig where
  symbol : String
  direction : Direction
  quote_amount : ℚ
  interval_minutes : ℕ
  price_drop_trigger : ℚ
  max_orders : ℕ
  take_profit_pct : ℚ
  stop_loss_pct : ℚ
  trailing_tp_pct : ℚ
  auto_restart : Bool
  auto_flip : Bool
  has_bnb_balance : Bool
deriving DecidableEq, Repr

/-- The exact rational value of `f64::MAX = (2 - 2^-52) * 2^1023`,
used by `dca.rs` as the "unset trough" sentinel. -/
def f64Max : ℚ := (2 ^ 53 - 1) * 2 ^ 971

/-- `dca.rs`: mutable state of one DCA strategy engine (`DcaStrategy`). -/
structure DcaStrategy where
  config : DcaConfig
  state : DcaState
  trades : List DcaTrade
  last_buy_time : Option ℤ
  last_buy_price : Option ℚ
  daily_spent : ℚ
  last_reset_day : ℕ
  next_buy_in_secs : ℤ
  price_peak : ℚ
  price_trough : ℚ
deriving DecidableEq, Repr

namespace DcaStrategy

/-- `dca.rs`: `DcaStrategy::new`. -/
def new (config : DcaConfig) : DcaStrategy where
  config := config
  state := .idle
  trades := []
  last_buy_time := none
  last_buy_price := none
  daily_spent := 0
  last_reset_day := 0
  next_buy_in_secs := 0
  price_peak := 0
  price_trough := f64Max

/-- `dca.rs`: `DcaStrategy::total_quantity` (sum of trade quantities). -/
def total_quantity (s : DcaStrategy) : ℚ :=
  (s.trades.map (·.quantity)).sum

/-- `dca.rs`: `DcaStrategy::total_invested` (sum of trade costs). -/
def total_invested (s : DcaStrategy) : ℚ :=
  (s.trades.map (·.cost)).sum

/-- `dca.rs`: `DcaStrategy::average_cost` — returns 0 when the total
quantity is 0, otherwise total cost / total quantity. -/
def average_cost (s : DcaStrategy) : ℚ :=
  let total_qty := s.total_quantity
  if total_qty = 0 then 0
  else s.total_invested / total_qty

/-- `dca.rs`: `DcaStrategy::pnl` — absolute P&L at `current_price`,
net of the estimated 0.1% closing fee; 0 when the total quantity is 0. -/
def pnl (s : DcaStrategy) (current_price : ℚ) : ℚ :=
  let total_qty := s.total_quantity
  if total_qty = 0 then 0
  else
    let current_value := total_qty * current_price
    let invested := s.total_invested
    match s.config.direction with
    | .long => current_value * (999 / 1000) - invested
    | .short => invested - current_value * (1001 / 1000)

/-- `dca.rs`: `DcaStrategy::pnl_pct` — percentage P&L;
0 when nothing is invested. -/
def pnl_pct (s : DcaStrategy) (current_price : ℚ) : ℚ :=
  let invested := s.total_invested
  if invested = 0 then 0
  else s.pnl current_price / invested * 100

/-- `chrono`'s `Duration::num_minutes`: seconds divided by 60,
truncated toward zero. -/
def numMinutes (secs : ℤ) : ℤ := Int.tdiv secs 60

/-- `dca.rs`: `DcaStrategy::tick` — daily-spend reset and countdown update.
`today` is the calendar day-of-month of `now` (`now.day()` in the source;
the chrono calendar decomposition is passed in as a parameter). -/
def tick (s : DcaStrategy) (now : ℤ) (today : ℕ) : DcaStrategy :=
  let s' :=
    if today ≠ s.last_reset_day then
      { s with daily_spent := 0, last_reset_day := today }
    else s
  match s'.last_buy_time with
  | some last_time =>
    let interval_secs := ((s'.config.interval_minutes : ℤ) * 60)
    let elapsed := now - last_time
    { s' with next_buy_in_secs := max (interval_secs - elapsed) 0 }
  | none => { s' with next_buy_in_secs := 0 }

/-- `dca.rs`: `DcaStrategy::should_buy` — decides whether a DCA entry
executes now, translated guard by guard from the source. -/
def should_buy (s : DcaStrategy) (current_price : ℚ) (now : ℤ)
    (max_daily : ℚ) : Bool :=
  if ¬ s.state.is_active then false
  else if s.config.max_orders ≤ s.trades.length then false
  else if max_daily < s.daily_spent + s.config.quote_amount then false
  else
    match s.last_buy_time with
    | none => false
    | some last_time =>
      let elapsed := numMinutes (now - last_time)
      if (s.config.interval_minutes : ℤ) ≤ elapsed then true
      else if 0 < s.config.price_drop_trigger then
        match s.last_buy_price with
        | some last_price =>
          if 0 < last_price then
            let move_pct :=
              match s.config.direction with
              | .long => (last_price - current_price) / last_price * 100
              | .short => (current_price - last_price) / last_price * 100
            if s.config.price_drop_trigger ≤ move_pct then true else false
          else false
        | none => false
      else false

/-- `dca.rs`: `DcaStrategy::update_price_peak` — raises the peak (Long)
or lowers the trough (Short) while trades are open. -/
def update_price_peak (s : DcaStrategy) (price : ℚ) : DcaStrategy :=
  if s.trades.isEmpty then s
  else
    match s.config.direction with
    | .long => if s.price_peak < price then { s with price_peak := price } else s
    | .short => if price < s.price_trough then { s with price_trough := price } else s

/-- `dca.rs`: `DcaStrategy::should_trailing_tp` — trailing take profit
decision, translated branch by branch from the source. -/
def should_trailing_tp (s : DcaStrategy) (current_price : ℚ) : Bool :=
  if s.trades.isEmpty ∨ s.config.trailing_tp_pct ≤ 0 then false
  else
    let avg := s.average_cost
    if avg = 0 then false
    else
      match s.config.direction with
      | .long =>
        if s.price_peak ≤ avg then false
        else
          let drop_from_peak := (s.price_peak - current_price) / s.price_peak * 100
          decide (s.config.trailing_tp_pct ≤ drop_from_peak) &&
            decide ((1 / 20 : ℚ) < s.pnl_pct current_price)
      | .short =>
        if avg ≤ s.price_trough ∨ s.price_trough = f64Max then false
        else
          let rise_from_trough := (current_price - s.price_trough) / s.price_trough * 100
          decide (s.config.trailing_tp_pct ≤ rise_from_trough) &&
            decide ((1 / 20 : ℚ) < s.pnl_pct current_price)

/-- `dca.rs`: `DcaStrategy::should_take_profit`. -/
def should_take_profit (s : DcaStrategy) (current_price : ℚ) : Bool :=
  if s.trades.isEmpty ∨ s.config.take_profit_pct ≤ 0 then false
  else decide (s.config.take_profit_pct ≤ s.pnl_pct current_price)

/-- `dca.rs`: `DcaStrategy::should_stop_loss`. -/
def should_stop_loss (s : DcaStrategy) (current_price : ℚ) : Bool :=
  if s.trades.isEmpty ∨ s.config.stop_loss_pct ≤ 0 then false
  else
    let avg := s.average_cost
    if avg = 0 then false
    else
      let loss_pct :=
        match s.config.direction with
        | .long => (avg - current_price) / avg * 100
        | .short => (current_price - avg) / avg * 100
      decide (s.config.stop_loss_pct ≤ loss_pct)

/-- `dca.rs`: `DcaStrategy::start` — stamps `now` as the interval
reference unless already running, then enters `Running`. -/
def start (s : DcaStrategy) (now : ℤ) : DcaStrategy :=
  let s' := if s.state ≠ .running then { s with last_buy_time := some now } else s
  { s' with state := .running }

/-- `dca.rs`: `DcaStrategy::stop` — `Running → Idle`, no-op otherwise. -/
def stop (s : DcaStrategy) : DcaStrategy :=
  if s.state = .running then { s with state := .idle } else s

/-- `dca.rs`: `DcaStrategy::record_buy` — appends a trade, stamps time and
price, accumulates daily spend, transitions to `MaxOrdersReached` when the
order cap is hit. -/
def record_buy (s : DcaStrategy) (order_id : ℕ) (price quantity cost : ℚ)
    (now : ℤ) : DcaStrategy :=
  let trades' := s.trades ++ [⟨order_id, price, quantity, cost, now⟩]
  { s with
    trades := trades'
    last_buy_time := some now
    last_buy_price := some price
    daily_spent := s.daily_spent + cost
    next_buy_in_secs := (s.config.interval_minutes : ℤ) * 60
    state := if s.config.max_orders ≤ trades'.length then .maxOrdersReached else s.state }

/-- `dca.rs`: `DcaStrategy::clear_trades` — clears the position and resets
the trailing extremes. -/
def clear_trades (s : DcaStrategy) : DcaStrategy :=
  { s with
    trades := []
    last_buy_time := none
    last_buy_price := none
    price_peak := 0
    price_trough := f64Max }

end DcaStrategy

/-- `dca.rs`: the persisted per-slot record (`StrategySnapshot`). -/
structure StrategySnapshot where
  symbol : String
  direction : Direction
  trades : List DcaTrade
  last_buy_time : Option ℤ
  last_buy_price : Option ℚ
  daily_spent : ℚ
  last_reset_day : ℕ
  price_peak : ℚ
  price_trough : ℚ
  has_bnb_balance : Bool
  state : DcaState
deriving DecidableEq, Repr

namespace DcaStrategy

/-- `dca.rs`: `DcaStrategy::to_snapshot`. -/
def to_snapshot (s : DcaStrategy) (symbol : String) : StrategySnapshot where
  symbol := symbol
  direction := s.config.direction
  trades := s.trades
  last_buy_time := s.last_buy_time
  last_buy_price := s.last_buy_price
  daily_spent := s.daily_spent
  last_reset_day := s.last_reset_day
  price_peak := s.price_peak
  price_trough := s.price_trough
  has_bnb_balance := s.config.has_bnb_balance
  state := s.state

/-- `dca.rs`: `DcaStrategy::restore_from_snapshot` — replaces the
in-memory defaults with every stored field, the lifecycle state included. -/
def restore_from_snapshot (s : DcaStrategy) (snapshot : StrategySnapshot) :
    DcaStrategy :=
  { s with
    config := { s.config with
      direction := snapshot.direction
      has_bnb_balance := snapshot.has_bnb_balance }
    trades := snapshot.trades
    last_buy_time := snapshot.last_buy_time
    last_buy_price := snapshot.last_buy_price
    daily_spent := snapshot.daily_spent
    last_reset_day := snapshot.last_reset_day
    price_peak := snapshot.price_peak
    price_trough := snapshot.price_trough
    state := snapshot.state }

end DcaStrategy

-- ---------------------------------------------------------------------------
-- `main.rs`: per-tick slot evaluation (`evaluate_slot`)
-- ---------------------------------------------------------------------------

/-- The action `evaluate_slot` (`main.rs`) executes on one tick for one slot:
exactly one of the four order kinds, or nothing. -/
inductive SlotAction where
  | stopLoss
  | takeProfit
  | trailingTp
  | entry
  | none
deriving DecidableEq, Repr

/-- `main.rs` `evaluate_slot`, decision part: the four decision flags are
read from the slot under the lock, then the branches run in priority order
stop-loss, take-profit, trailing-take-profit, entry, each closing branch
`return`ing before the entry branch is reached. -/
def evaluateSlotAction (s : DcaStrategy) (price : ℚ) (now : ℤ)
    (max_daily : ℚ) : SlotAction :=
  let should_entry := s.should_buy price now max_daily
  let should_tp := s.should_take_profit price
  let should_sl := s.should_stop_loss price
  let should_ttp := s.should_trailing_tp price
  let qty := s.total_quantity
  if should_sl ∧ 0 < qty then .stopLoss
  else if should_tp ∧ 0 < qty then .takeProfit
  else if should_ttp ∧ 0 < qty then .trailingTp
  else if should_entry then .entry
  else .none

/-- `main.rs` `evaluate_slot`, one whole tick for one slot: `tick` the
timer, return with no action when no price is known (`price == 0.0`),
update the trailing extreme, then run the prioritized decision chain. -/
def evaluateSlot (s : DcaStrategy) (price : ℚ) (now : ℤ) (today : ℕ)
    (max_daily : ℚ) : SlotAction :=
  if price = 0 then .none
  else evaluateSlotAction ((s.tick now today).update_price_peak price)
    price now max_daily

/-- `main.rs` `evaluate_slot`, stop-loss success branch (the state mutation
performed after a stop-loss order fills): `state = StopLossReached`, then
`stop()`, then `clear_trades()`. -/
def stopLossFillUpdate (s : DcaStrategy) : DcaStrategy :=
  ({ s with state := .stopLossReached }).stop.clear_trades

-- ---------------------------------------------------------------------------
-- `app.rs` / `main.rs`: slot registry, startup restore and UI mode
-- ---------------------------------------------------------------------------

/-- `app.rs`: `MAX_SLOTS` — maximum number of simultaneous strategies. -/
def MAX_SLOTS : ℕ := 4

/-- One entry of `restore_info` built in `main()`:
`(symbol, direction, trade_count, is_active)`. -/
structure RestoreInfo where
  symbol : String
  direction : Direction
  trade_count : ℕ
  active : Bool
deriving DecidableEq, Repr

/-- `app.rs`: the UI mode variants `main.rs` manipulates at startup. -/
inductive UiMode where
  | normal
  | config
  | restoreSession (info : List RestoreInfo)
  | newStrategy
  | confirmClose
  | confirmDelete
deriving DecidableEq, Repr

/-- `app.rs`: one strategy slot (`StrategySlot`), without the cached
balances the decision logic never reads. -/
structure StrategySlot where
  id : ℕ
  strategy : DcaStrategy
  symbol : String
deriving DecidableEq, Repr

/-- `main.rs` (startup loop over snapshots): the slot restored for one
snapshot — a fresh strategy built from the base config with the snapshot's
symbol and direction, then `restore_from_snapshot`. -/
def restoredSlot (baseCfg : DcaConfig) (id : ℕ) (snap : StrategySnapshot) :
    StrategySlot where
  id := id
  strategy :=
    (DcaStrategy.new
      { baseCfg with symbol := snap.symbol, direction := snap.direction
      }).restore_from_snapshot snap
  symbol := snap.symbol

/-- `main.rs` (startup restore loop): restores one slot per snapshot,
allocating ids from `next_id` and breaking once `MAX_SLOTS` slots exist
(`next_id` equals the number of slots pushed so far). -/
def restoreLoop (baseCfg : DcaConfig) :
    List StrategySnapshot → ℕ → List StrategySlot
  | [], _ => []
  | snap :: rest, next_id =>
    if MAX_SLOTS ≤ next_id then []
    else restoredSlot baseCfg next_id snap :: restoreLoop baseCfg rest (next_id + 1)

/-- `main.rs` (startup restore loop): the `restore_info` entries recorded in
the same loop — symbol, direction, the snapshot's trade count and whether
the restored strategy is active. -/
def restoreInfoLoop (baseCfg : DcaConfig) :
    List StrategySnapshot → ℕ → List RestoreInfo
  | [], _ => []
  | snap :: rest, next_id =>
    if MAX_SLOTS ≤ next_id then []
    else
      ⟨snap.symbol, snap.direction, snap.trades.length,
        ((restoredSlot baseCfg next_id snap).strategy.state).is_active⟩
      :: restoreInfoLoop baseCfg rest (next_id + 1)

/-- `main.rs` (startup): the initial slots. With snapshots present, the
restore loop runs; otherwise one default slot from the config. -/
def startupSlots (baseCfg : DcaConfig) (snaps : List StrategySnapshot) :
    List StrategySlot :=
  if snaps.isEmpty then
    [⟨0, DcaStrategy.new baseCfg, baseCfg.symbol⟩]
  else restoreLoop baseCfg snaps 0

/-- `main.rs` (startup): the `restore_info` list (empty when there are no
snapshots, which `restoreInfoLoop` already yields on `[]`). -/
def restoreInfoList (baseCfg : DcaConfig) (snaps : List StrategySnapshot) :
    List RestoreInfo :=
  restoreInfoLoop baseCfg snaps 0

/-- `main.rs` line 128: the startup UI mode — `RestoreSession` exactly when
some restored slot has trades or is active, `Normal` otherwise. -/
def initialUiMode (baseCfg : DcaConfig) (snaps : List StrategySnapshot) :
    UiMode :=
  let info := restoreInfoList baseCfg snaps
  if info.any (fun r => 0 < r.trade_count ∨ r.active) then
    .restoreSession info
  else .normal

/-- The registry state the slot-count claims are about: the slot list and
the monotone id counter. -/
structure Registry where
  slots : List StrategySlot
  next_slot_id : ℕ
deriving DecidableEq, Repr

/-- `main.rs` (startup): the initial registry. -/
def startupRegistry (baseCfg : DcaConfig) (snaps : List StrategySnapshot) :
    Registry where
  slots := startupSlots baseCfg snaps
  next_slot_id := (startupSlots baseCfg snaps).length

/-- The registry-mutating commands that create or destroy slots
(`handle_command` in `main.rs`): confirming a new strategy, confirming a
slot deletion, and discarding the restored session. -/
inductive RegistryStep where
  | newStratConfirm (cfg : DcaConfig) (now : ℤ)
  | confirmDeleteNow (id : ℕ)
  | restoreSessionDiscard (baseCfg : DcaConfig)
deriving Repr

/-- `app.rs`: `AppState::alloc_slot_id` combined with the push of a new
`StrategySlot` (as done in `handle_command`). -/
def Registry.pushSlot (r : Registry) (strat : DcaStrategy) (symbol : String) :
    Registry where
  slots := r.slots ++ [⟨r.next_slot_id, strat, symbol⟩]
  next_slot_id := r.next_slot_id + 1

/-- `app.rs`: `AppState::remove_slot`. -/
def Registry.removeSlot (r : Registry) (id : ℕ) : Registry where
  slots := r.slots.filter (fun sl => sl.id ≠ id)
  next_slot_id := r.next_slot_id

/-- `main.rs` `handle_command`: effect of one slot-creating/destroying
command on the registry. `NewStratConfirm` refuses when `MAX_SLOTS` slots
already exist and pushes a started strategy otherwise;
`ConfirmDeleteNow` removes the slot; `RestoreSessionDiscard` clears all
slots and pushes one default (idle) slot from the base config. -/
def applyStep (r : Registry) : RegistryStep → Registry
  | .newStratConfirm cfg now =>
    if r.slots.length < MAX_SLOTS then
      r.pushSlot ((DcaStrategy.new cfg).start now) cfg.symbol
    else r
  | .confirmDeleteNow id => r.removeSlot id
  | .restoreSessionDiscard baseCfg =>
    Registry.pushSlot { slots := [], next_slot_id := r.next_slot_id }
      (DcaStrategy.new baseCfg) baseCfg.symbol

-- ---------------------------------------------------------------------------
-- Persistence: the snapshot JSON codec
-- ---------------------------------------------------------------------------
-- Modelled from the spec: `save_snapshots`/`load_snapshots` (`main.rs`) use
-- the external `serde_json` library with `#[derive(Serialize, Deserialize)]`
-- impls; the derived field-by-field JSON mapping (§6 "Persisted snapshot
-- format") is modelled here at the JSON-value level.  Object keys are an
-- enumeration standing for the field-name strings; timestamps appear as
-- their integer embedding.

/-- The JSON object keys of the persisted snapshot format (each constructor
stands for the corresponding serde field name, plus the `"ERROR"` tag of the
`DcaState::Error` variant). -/
inductive Key where
  | symbol | direction | trades
  | lastBuyTime | lastBuyPrice | dailySpent | lastResetDay
  | pricePeak | priceTrough | hasBnbBalance | state
  | orderId | buyPrice | quantity | cost | timestamp
  | errorTag
deriving DecidableEq, Repr

/-- A JSON value with enumerated object keys. -/
inductive Json where
  | null
  | bool (b : Bool)
  | num (q : ℚ)
  | str (s : String)
  | arr (xs : List Json)
  | obj (fields : List (Key × Json))

/-- Field lookup in a JSON object (first match wins, as in serde). -/
def lookupKey : List (Key × Json) → Key → Option Json
  | [], _ => none
  | (k', v) :: rest, k => if k' = k then some v else lookupKey rest k

/-- Modelled from the spec: serde encoding of one trade record. -/
def encodeTrade (t : DcaTrade) : Json :=
  .obj [(.orderId, .num t.order_id), (.buyPrice, .num t.buy_price),
        (.quantity, .num t.quantity), (.cost, .num t.cost),
        (.timestamp, .num t.timestamp)]

/-- Modelled from the spec: serde encoding of `Direction`
(`rename_all = "lowercase"`). -/
def encodeDirection : Direction → Json
  | .long => .str "long"
  | .short => .str "short"

/-- Modelled from the spec: serde encoding of `DcaState`
(`rename_all = "SCREAMING_SNAKE_CASE"`, externally tagged). -/
def encodeState : DcaState → Json
  | .idle => .str "IDLE"
  | .running => .str "RUNNING"
  | .takeProfitReached => .str "TAKE_PROFIT_REACHED"
  | .stopLossReached => .str "STOP_LOSS_REACHED"
  | .maxOrdersReached => .str "MAX_ORDERS_REACHED"
  | .error msg => .obj [(.errorTag, .str msg)]

/-- serde encoding of an optional timestamp (`None` ↦ `null`). -/
def encodeOptInt : Option ℤ → Json
  | Option.none => .null
  | some t => .num (t : ℚ)

/-- serde encoding of an optional float (`None` ↦ `null`). -/
def encodeOptNum : Option ℚ → Json
  | Option.none => .null
  | some q => .num q

/-- Modelled from the spec: serde encoding of one `StrategySnapshot`,
fields in declaration order. -/
def encodeSnapshot (sn : StrategySnapshot) : Json :=
  .obj [(.symbol, .str sn.symbol),
        (.direction, encodeDirection sn.direction),
        (.trades, .arr (sn.trades.map encodeTrade)),
        (.lastBuyTime, encodeOptInt sn.last_buy_time),
        (.lastBuyPrice, encodeOptNum sn.last_buy_price),
        (.dailySpent, .num sn.daily_spent),
        (.lastResetDay, .num sn.last_reset_day),
        (.pricePeak, .num sn.price_peak),
        (.priceTrough, .num sn.price_trough),
        (.hasBnbBalance, .bool sn.has_bnb_balance),
        (.state, encodeState sn.state)]

/-- `main.rs` `save_snapshots`: the serialized form of the slot snapshots —
a JSON array with one record per snapshot. -/
def encodeSnapshots (snaps : List StrategySnapshot) : Json :=
  .arr (snaps.map encodeSnapshot)

/-- Decode a JSON number into a rational. -/
def decodeNum : Json → Option ℚ
  | .num q => some q
  | _ => Option.none

/-- Decode a JSON number into an unsigned integer. -/
def decodeNat (j : Json) : Option ℕ :=
  match j with
  | .num q => if q.den = 1 ∧ 0 ≤ q.num then some q.num.toNat else Option.none
  | _ => Option.none

/-- Decode a JSON number into a signed integer. -/
def decodeInt (j : Json) : Option ℤ :=
  match j with
  | .num q => if q.den = 1 then some q.num else Option.none
  | _ => Option.none

/-- Decode a nullable timestamp. -/
def decodeOptInt (j : Json) : Option (Option ℤ) :=
  match j with
  | .null => some Option.none
  | .num q => if q.den = 1 then some (some q.num) else Option.none
  | _ => Option.none

/-- Decode a nullable float. -/
def decodeOptNum : Json → Option (Option ℚ)
  | .null => some Option.none
  | .num q => some (some q)
  | _ => Option.none

/-- Decode a JSON boolean. -/
def decodeBool : Json → Option Bool
  | .bool b => some b
  | _ => Option.none

/-- Decode a JSON string. -/
def decodeStr : Json → Option String
  | .str s => some s
  | _ => Option.none

/-- Modelled from the spec: serde decoding of `Direction`. -/
def decodeDirection : Json → Option Direction
  | .str s =>
    if s = "long" then some .long
    else if s = "short" then some .short
    else Option.none
  | _ => Option.none

/-- Modelled from the spec: serde decoding of `DcaState`. -/
def decodeState : Json → Option DcaState
  | .str s =>
    if s = "IDLE" then some .idle
    else if s = "RUNNING" then some .running
    else if s = "TAKE_PROFIT_REACHED" then some .takeProfitReached
    else if s = "STOP_LOSS_REACHED" then some .stopLossReached
    else if s = "MAX_ORDERS_REACHED" then some .maxOrdersReached
    else Option.none
  | .obj [(.errorTag, .str msg)] => some (.error msg)
  | _ => Option.none

/-- Modelled from the spec: serde decoding of one trade record. -/
def decodeTrade (j : Json) : Option DcaTrade :=
  match j with
  | .obj fields => do
    let order_id ← lookupKey fields .orderId >>= decodeNat
    let buy_price ← lookupKey fields .buyPrice >>= decodeNum
    let quantity ← lookupKey fields .quantity >>= decodeNum
    let cost ← lookupKey fields .cost >>= decodeNum
    let timestamp ← lookupKey fields .timestamp >>= decodeInt
    pure ⟨order_id, buy_price, quantity, cost, timestamp⟩
  | _ => Option.none

/-- Decode every element of a JSON sequence, failing on the first element
that fails (serde's sequence semantics). -/
def decodeList {α : Type} (dec : Json → Option α) : List Json → Option (List α)
  | [] => some []
  | j :: rest => do
    let x ← dec j
    let xs ← decodeList dec rest
    pure (x :: xs)

/-- Decode the trade array. -/
def decodeTrades (j : Json) : Option (List DcaTrade) :=
  match j with
  | .arr xs => decodeList decodeTrade xs
  | _ => Option.none

/-- serde semantics of a field with a `default`: a missing field takes the
default, a present field must decode. -/
def fieldOrDefault {α : Type} (fields : List (Key × Json)) (k : Key)
    (dec : Json → Option α) (dflt : α) : Option α :=
  match lookupKey fields k with
  | Option.none => some dflt
  | some j => dec j

/-- serde semantics of a required field. -/
def requiredField {α : Type} (fields : List (Key × Json)) (k : Key)
    (dec : Json → Option α) : Option α :=
  lookupKey fields k >>= dec

/-- Modelled from the spec: serde decoding of one `StrategySnapshot`.
`direction`, `price_peak`, `price_trough`, `has_bnb_balance` and `state`
carry `#[serde(default)]`-style defaults (`Long`, `0`, `f64::MAX`, `false`,
`Idle`); `Option` fields decode to `None` when missing; the remaining
fields are required. -/
def decodeSnapshot (j : Json) : Option StrategySnapshot :=
  match j with
  | .obj fields => do
    let symbol ← requiredField fields .symbol decodeStr
    let direction ← fieldOrDefault fields .direction decodeDirection .long
    let trades ← requiredField fields .trades decodeTrades
    let last_buy_time ← fieldOrDefault fields .lastBuyTime decodeOptInt Option.none
    let last_buy_price ← fieldOrDefault fields .lastBuyPrice decodeOptNum Option.none
    let daily_spent ← requiredField fields .dailySpent decodeNum
    let last_reset_day ← requiredField fields .lastResetDay decodeNat
    let price_peak ← fieldOrDefault fields .pricePeak decodeNum 0
    let price_trough ← fieldOrDefault fields .priceTrough decodeNum f64Max
    let has_bnb_balance ← fieldOrDefault fields .hasBnbBalance decodeBool false
    let state ← fieldOrDefault fields .state decodeState .idle
    pure ⟨symbol, direction, trades, last_buy_time, last_buy_price,
          daily_spent, last_reset_day, price_peak, price_trough,
          has_bnb_balance, state⟩
  | _ => Option.none

/-- Decode a snapshot array. -/
def decodeSnapshots (j : Json) : Option (List StrategySnapshot) :=
  match j with
  | .arr xs => decodeList decodeSnapshot xs
  | _ => Option.none

/-- `main.rs` `load_snapshots`: try the array form first, fall back to a
single object, and return the empty list when neither parses. -/
def loadSnapshots (j : Json) : List StrategySnapshot :=
  match decodeSnapshots j with
  | some snaps => snaps
  | Option.none =>
    match decodeSnapshot j with
    | some snap => [snap]
    | Option.none => []

-- ---------------------------------------------------------------------------
-- Concrete fixtures used by witnesses and counterexamples
-- ---------------------------------------------------------------------------

/-- A representative Long configuration (quote 10 USDT, 60-minute interval,
10 orders max, TP 3%, SL 5%, trailing TP 2%). -/
def demoCfg : DcaConfig where
  symbol := "BTCUSDT"
  direction := .long
  quote_amount := 10
  interval_minutes := 60
  price_drop_trigger := 0
  max_orders := 10
  take_profit_pct := 3
  stop_loss_pct := 5
  trailing_tp_pct := 2
  auto_restart := false
  auto_flip := false
  has_bnb_balance := false

/-- A freshly created Running slot: no trades, no prior entry recorded. -/
def demoFresh : DcaStrategy :=
  { DcaStrategy.new demoCfg with state := .running }

/-- A Running slot that already spent 95 USDT today. -/
def demoDaily : DcaStrategy :=
  { DcaStrategy.new demoCfg with
    state := .running
    daily_spent := 95
    last_buy_time := some 0 }

/-- A Running Long slot with one open trade (quantity 1 at price 100, so
average cost 100) whose recorded price peak is 110. -/
def demoOpen : DcaStrategy :=
  { DcaStrategy.new demoCfg with
    state := .running
    trades := [⟨1, 100, 1, 100, 0⟩]
    price_peak := 110 }

/-- The same open position with a recorded price peak of 101. -/
def demoPeak101 : DcaStrategy :=
  { DcaStrategy.new demoCfg with
    state := .running
    trades := [⟨1, 100, 1, 100, 0⟩]
    price_peak := 101 }

/-- A persisted record that omits every optional field (`direction`,
`last_buy_time`, `last_buy_price`, `price_peak`, `price_trough`,
`has_bnb_balance`, `state`). -/
def minimalFields : List (Key × Json) :=
  [(.symbol, .str "BTCUSDT"), (.trades, .arr []),
   (.dailySpent, .num 0), (.lastResetDay, .num 0)]

/-- The snapshot expected from decoding `minimalFields`: every defaulted
field takes its serde default. -/
def minimalSnap : StrategySnapshot :=
  ⟨"BTCUSDT", .long, [], Option.none, Option.none, 0, 0, 0, f64Max, false, .idle⟩

/-- A snapshot of a Running slot with two recorded trades. -/
def demoSnap : StrategySnapshot :=
  ⟨"ETHUSDT", .long, [⟨7, 100, 1, 100, 5⟩, ⟨8, 90, 1, 90, 65⟩],
   some 65, some 90, 190, 3, 105, f64Max, false, .running⟩

/-- A registry already holding `MAX_SLOTS` slots. -/
def demoReg4 : Registry where
  slots :=
    [⟨0, DcaStrategy.new demoCfg, "BTCUSDT"⟩, ⟨1, DcaStrategy.new demoCfg, "ETHUSDT"⟩,
     ⟨2, DcaStrategy.new demoCfg, "XRPUSDT"⟩, ⟨3, DcaStrategy.new demoCfg, "ADAUSDT"⟩]
  next_slot_id := 4

-- ---------------------------------------------------------------------------
-- Helper lemmas
-- ---------------------------------------------------------------------------

theorem DcaState.is_active_iff (st : DcaState) :
    st.is_active = true ↔ st = .running := by
  cases st <;> simp [DcaState.is_active]

theorem total_quantity_nil (s : DcaStrategy) (h : s.trades = []) :
    s.total_quantity = 0 := by
  simp [DcaStrategy.total_quantity, h]

theorem total_invested_nil (s : DcaStrategy) (h : s.trades = []) :
    s.total_invested = 0 := by
  simp [DcaStrategy.total_invested, h]

theorem restoredSlot_state (baseCfg : DcaConfig) (i : ℕ)
    (sn : StrategySnapshot) :
    (restoredSlot baseCfg i sn).strategy.state = sn.state := rfl

theorem restoreInfoLoop_any_iff (baseCfg : DcaConfig)
    (snaps : List StrategySnapshot) (n : ℕ) :
    ((restoreInfoLoop baseCfg snaps n).any
        fun r => 0 < r.trade_count ∨ r.active) = true
      ↔ ∃ sn ∈ snaps.take (MAX_SLOTS - n),
          sn.trades ≠ [] ∨ sn.state = .running := by
  induction snaps generalizing n with
  | nil => simp [restoreInfoLoop]
  | cons snap rest ih =>
    by_cases h4 : MAX_SLOTS ≤ n
    · have h0 : MAX_SLOTS - n = 0 := Nat.sub_eq_zero_of_le h4
      simp [restoreInfoLoop, h4, h0]
    · have hstep : MAX_SLOTS - n = (MAX_SLOTS - (n + 1)) + 1 := by omega
      rw [hstep]
      simp only [restoreInfoLoop, if_neg h4, List.take_succ_cons, List.any_cons,
        Bool.or_eq_true, ih (n + 1)]
      simp [restoredSlot_state, DcaState.is_active_iff, List.length_pos]

theorem decodeTrade_encodeTrade (t : DcaTrade) :
    decodeTrade (encodeTrade t) = some t := by
  cases t
  simp [encodeTrade, decodeTrade, lookupKey, decodeNat, decodeNum, decodeInt]

theorem decodeDirection_encodeDirection (d : Direction) :
    decodeDirection (encodeDirection d) = some d := by
  cases d <;> rfl

theorem decodeState_encodeState (st : DcaState) :
    decodeState (encodeState st) = some st := by
  cases st <;> rfl

theorem decodeOptInt_encodeOptInt (o : Option ℤ) :
    decodeOptInt (encodeOptInt o) = some o := by
  cases o <;> simp [encodeOptInt, decodeOptInt]

theorem decodeOptNum_encodeOptNum (o : Option ℚ) :
    decodeOptNum (encodeOptNum o) = some o := by
  cases o <;> simp [encodeOptNum, decodeOptNum]

theorem decodeTrades_encodeTrades (ts : List DcaTrade) :
    decodeTrades (.arr (ts.map encodeTrade)) = some ts := by
  simp only [decodeTrades]
  induction ts with
  | nil => rfl
  | cons t ts ih => simp [decodeList, decodeTrade_encodeTrade, ih]

theorem decodeSnapshot_encodeSnapshot (sn : StrategySnapshot) :
    decodeSnapshot (encodeSnapshot sn) = some sn := by
  cases sn
  simp [encodeSnapshot, decodeSnapshot, lookupKey, requiredField,
    fieldOrDefault, decodeStr, decodeNum, decodeNat, decodeBool,
    decodeDirection_encodeDirection, decodeState_encodeState,
    decodeOptInt_encodeOptInt, decodeOptNum_encodeOptNum,
    decodeTrades_encodeTrades]

theorem decodeSnapshots_encodeSnapshots (snaps : List StrategySnapshot) :
    decodeSnapshots (encodeSnapshots snaps) = some snaps := by
  simp only [decodeSnapshots, encodeSnapshots]
  induction snaps with
  | nil => rfl
  | cons s ss ih => simp [decodeList, decodeSnapshot_encodeSnapshot, ih]

theorem restoreLoop_length_le (baseCfg : DcaConfig)
    (snaps : List StrategySnapshot) (n : ℕ) :
    (restoreLoop baseCfg snaps n).length ≤ MAX_SLOTS - n := by
  induction snaps generalizing n with
  | nil => simp [restoreLoop]
  | cons snap rest ih =>
    by_cases h4 : MAX_SLOTS ≤ n
    · simp [restoreLoop, h4]
    · simp only [restoreLoop, if_neg h4, List.length_cons]
      have := ih (n + 1)
      omega

theorem startupSlots_length_le (baseCfg : DcaConfig)
    (snaps : List StrategySnapshot) :
    (startupSlots baseCfg snaps).length ≤ MAX_SLOTS := by
  by_cases h : snaps.isEmpty
  · simp [startupSlots, h, MAX_SLOTS]
  · have := restoreLoop_length_le baseCfg snaps 0
    simp only [startupSlots, if_neg h]
    omega

theorem applyStep_length_le (r : Registry) (st : RegistryStep)
    (h : r.slots.length ≤ MAX_SLOTS) :
    (applyStep r st).slots.length ≤ MAX_SLOTS := by
  cases st with
  | newStratConfirm cfg now =>
    by_cases hlt : r.slots.length < MAX_SLOTS
    · simp only [applyStep, if_pos hlt, Registry.pushSlot,
        List.length_append, List.length_singleton]
      omega
    · simpa [applyStep, hlt] using h
  | confirmDeleteNow id =>
    simp only [applyStep, Registry.removeSlot]
    exact le_trans (List.length_filter_le _ _) h
  | restoreSessionDiscard baseCfg =>
    simp [applyStep, Registry.pushSlot, MAX_SLOTS]

-- ---------------------------------------------------------------------------
-- Claim theorems
-- ---------------------------------------------------------------------------

/-- Claim C1, counterexample: a freshly started Running slot that satisfies
every premise of the claim — trade count (0) below the maximum (10), daily
spend within the cap (0 + 10 ≤ 100) — and has no recorded entry time, yet
`should_buy` returns `false`, not `true` as the claim states. -/
theorem C1_counterexample :
    demoFresh.state = .running ∧
    demoFresh.trades.length < demoFresh.config.max_orders ∧
    demoFresh.daily_spent + demoFresh.config.quote_amount ≤ 100 ∧
    demoFresh.last_buy_time = Option.none ∧
    demoFresh.should_buy 100 0 100 = false := by
  refine ⟨rfl, ?_, ?_, rfl, ?_⟩
  · norm_num [demoFresh, demoCfg, DcaStrategy.new]
  · norm_num [demoFresh, demoCfg, DcaStrategy.new]
  · norm_num [demoFresh, demoCfg, DcaStrategy.new, DcaStrategy.should_buy,
      DcaState.is_active]

/-- Claim C1 (amended): whenever no prior entry has been recorded
(`last_buy_time` unset), `should_buy` returns `false` — the first entry is
not unconditional; it waits for the interval from the `start()` stamp. -/
theorem C1_no_prior_entry_no_buy (s : DcaStrategy) (price : ℚ) (now : ℤ)
    (max_daily : ℚ) (h : s.last_buy_time = Option.none) :
    s.should_buy price now max_daily = false := by
  simp [DcaStrategy.should_buy, h]

/-- Claim C1, witness for the amended theorem at the fresh Running slot. -/
theorem C1_witness :
    demoFresh.last_buy_time = Option.none ∧
    demoFresh.should_buy 100 0 100 = false :=
  ⟨rfl, C1_no_prior_entry_no_buy demoFresh 100 0 100 rfl⟩

/-- Claim C2, counterexample: after the stop-loss closing path runs on a
Running slot with an open position, the state is `StopLossReached`, not
`Idle` (the `stop()` call is a no-op because the state was just forced to
`StopLossReached`). -/
theorem C2_counterexample :
    (stopLossFillUpdate demoOpen).state = .stopLossReached ∧
    (stopLossFillUpdate demoOpen).state ≠ .idle := by
  constructor <;>
    simp [stopLossFillUpdate, DcaStrategy.stop, DcaStrategy.clear_trades]

/-- Claim C2 (amended): the stop-loss closing path forces the state to
`StopLossReached` and leaves it there (`stop()` only acts on `Running`),
clears the trades, and the slot is no longer active, so manual
re-activation is required. -/
theorem C2_stop_loss_state (s : DcaStrategy) :
    (stopLossFillUpdate s).state = .stopLossReached ∧
    (stopLossFillUpdate s).trades = [] ∧
    (stopLossFillUpdate s).state.is_active = false := by
  refine ⟨?_, ?_, ?_⟩ <;>
    simp [stopLossFillUpdate, DcaStrategy.stop, DcaStrategy.clear_trades,
      DcaState.is_active]

/-- Claim C3, counterexample: with average cost 100, trailing percentage 2
and recorded peak 110, `should_trailing_tp` at price 107.9 returns `false`
(the drop from the peak is 2.1/110 ≈ 1.91% < 2%), contradicting the claim
that it returns `true` there. -/
theorem C3_counterexample :
    demoOpen.average_cost = 100 ∧
    demoOpen.config.trailing_tp_pct = 2 ∧
    demoOpen.price_peak = 110 ∧
    demoOpen.should_trailing_tp (1079 / 10) = false := by
  refine ⟨?_, rfl, rfl, ?_⟩
  · norm_num [demoOpen, demoCfg, DcaStrategy.new, DcaStrategy.average_cost,
      DcaStrategy.total_quantity, DcaStrategy.total_invested]
  · norm_num [demoOpen, demoCfg, DcaStrategy.new, DcaStrategy.should_trailing_tp,
      DcaStrategy.average_cost, DcaStrategy.total_quantity,
      DcaStrategy.total_invested, DcaStrategy.pnl_pct, DcaStrategy.pnl]

/-- Claim C3 (amended): with average cost 100, direction Long and trailing
percentage 2, a recorded peak of 110 triggers at price 107.8 (drop from the
peak exactly 2%, net P&L ≈ 7.69% > 0.05%) but not at 107.9 (drop ≈ 1.91%);
with recorded peak 101 and price 99 it does not trigger (drop ≈ 1.98% < 2%
and the net P&L is negative — the peak 101 did exceed the average cost). -/
theorem C3_trailing_tp_cases :
    demoOpen.average_cost = 100 ∧
    demoOpen.should_trailing_tp (1079 / 10) = false ∧
    demoOpen.should_trailing_tp (1078 / 10) = true ∧
    demoPeak101.should_trailing_tp 99 = false := by
  refine ⟨?_, ?_, ?_, ?_⟩ <;>
    norm_num [demoOpen, demoPeak101, demoCfg, DcaStrategy.new,
      DcaStrategy.should_trailing_tp, DcaStrategy.average_cost,
      DcaStrategy.total_quantity, DcaStrategy.total_invested,
      DcaStrategy.pnl_pct, DcaStrategy.pnl]

/-- Claim C5: for every slot state, price and time, `should_buy` returns
`false` whenever the daily spend plus the per-entry quote amount exceeds
the daily cap — every guard before the daily-cap check also returns
`false`, and every `true` exit lies behind it. -/
theorem C5_daily_cap_blocks (s : DcaStrategy) (price : ℚ) (now : ℤ)
    (max_daily : ℚ) (h : max_daily < s.daily_spent + s.config.quote_amount) :
    s.should_buy price now max_daily = false := by
  simp [DcaStrategy.should_buy, h]

/-- Claim C5, witness: `dailySpent = 95`, `dailyCap = 100`,
`quoteAmount = 10` make entry impossible. -/
theorem C5_witness :
    (100 : ℚ) < demoDaily.daily_spent + demoDaily.config.quote_amount ∧
    demoDaily.should_buy 100 86400 100 = false :=
  ⟨by norm_num [demoDaily, demoCfg, DcaStrategy.new],
   C5_daily_cap_blocks demoDaily 100 86400 100
     (by norm_num [demoDaily, demoCfg, DcaStrategy.new])⟩

/-- Claim C10: the portfolio metrics are total and never divide by zero —
zero total quantity makes `average_cost` and `pnl` return 0, zero invested
makes `pnl_pct` return 0, and an empty trade list reports 0 for all three. -/
theorem C10_metrics_total (s : DcaStrategy) (price : ℚ) :
    (s.total_quantity = 0 → s.average_cost = 0 ∧ s.pnl price = 0) ∧
    (s.total_invested = 0 → s.pnl_pct price = 0) ∧
    (s.trades = [] →
      s.average_cost = 0 ∧ s.pnl price = 0 ∧ s.pnl_pct price = 0) := by
  refine ⟨fun h => ⟨?_, ?_⟩, fun h => ?_, fun h => ⟨?_, ?_, ?_⟩⟩
  · simp [DcaStrategy.average_cost, h]
  · simp [DcaStrategy.pnl, h]
  · simp [DcaStrategy.pnl_pct, h]
  · simp [DcaStrategy.average_cost, total_quantity_nil s h]
  · simp [DcaStrategy.pnl, total_quantity_nil s h]
  · simp [DcaStrategy.pnl_pct, total_invested_nil s h]

/-- Claim C10, witness: a fresh slot with an empty trade list reports
average cost 0, P&L 0 and P&L% 0 at price 50. -/
theorem C10_witness :
    demoFresh.trades = [] ∧
    demoFresh.average_cost = 0 ∧ demoFresh.pnl 50 = 0 ∧
    demoFresh.pnl_pct 50 = 0 :=
  ⟨rfl, (C10_metrics_total demoFresh 50).2.2 rfl⟩

/-- Claim C4: per tick, one slot considers its actions in priority order
stop-loss, take-profit, trailing-take-profit, entry; the chain returns
exactly one action (so at most one order executes per slot per tick), and
each action fires precisely when its flag holds and no higher-priority
closure fired — in particular an entry is evaluated only when no closure
executed. The first conjunct ties the full tick evaluation to the decision
chain run on the ticked, extreme-updated strategy. -/
theorem C4_priority_order :
    (∀ (s : DcaStrategy) (price : ℚ) (now : ℤ) (today : ℕ) (max_daily : ℚ),
      price ≠ 0 →
      evaluateSlot s price now today max_daily
        = evaluateSlotAction ((s.tick now today).update_price_peak price)
            price now max_daily) ∧
    (∀ (s : DcaStrategy) (price : ℚ) (now : ℤ) (max_daily : ℚ),
      (evaluateSlotAction s price now max_daily = .stopLoss ↔
        (s.should_stop_loss price = true ∧ 0 < s.total_quantity)) ∧
      (evaluateSlotAction s price now max_daily = .takeProfit ↔
        (¬(s.should_stop_loss price = true ∧ 0 < s.total_quantity) ∧
          (s.should_take_profit price = true ∧ 0 < s.total_quantity))) ∧
      (evaluateSlotAction s price now max_daily = .trailingTp ↔
        (¬(s.should_stop_loss price = true ∧ 0 < s.total_quantity) ∧
          ¬(s.should_take_profit price = true ∧ 0 < s.total_quantity) ∧
          (s.should_trailing_tp price = true ∧ 0 < s.total_quantity))) ∧
      (evaluateSlotAction s price now max_daily = .entry ↔
        (¬(s.should_stop_loss price = true ∧ 0 < s.total_quantity) ∧
          ¬(s.should_take_profit price = true ∧ 0 < s.total_quantity) ∧
          ¬(s.should_trailing_tp price = true ∧ 0 < s.total_quantity) ∧
          s.should_buy price now max_daily = true))) := by
  constructor
  · intro s price now today max_daily h
    simp [evaluateSlot, h]
  · intro s price now max_daily
    simp only [evaluateSlotAction]
    split_ifs with h1 h2 h3 h4 <;> simp_all

/-- Claim C4, witness: the tick-to-decision-chain equation at a concrete
slot and a nonzero price. -/
theorem C4_witness :
    (100 : ℚ) ≠ 0 ∧
    evaluateSlot demoOpen 100 0 1 1000
      = evaluateSlotAction ((demoOpen.tick 0 1).update_price_peak 100)
          100 0 1000 :=
  ⟨by norm_num,
   C4_priority_order.1 demoOpen 100 0 1 1000 (by norm_num)⟩

/-- Claim C6: restoring a slot from a persisted snapshot replaces the
in-memory defaults with the stored trades, last-entry time/price, daily
counters, price extremes, fee setting and lifecycle state (a Running
snapshot yields a Running slot), and at startup the restore-session prompt
is entered if and only if some restored slot (among the first `MAX_SLOTS`
snapshots) has a non-empty trade list or a Running state. -/
theorem C6_restore_semantics :
    (∀ (s : DcaStrategy) (snap : StrategySnapshot),
      (s.restore_from_snapshot snap).trades = snap.trades ∧
      (s.restore_from_snapshot snap).last_buy_time = snap.last_buy_time ∧
      (s.restore_from_snapshot snap).last_buy_price = snap.last_buy_price ∧
      (s.restore_from_snapshot snap).daily_spent = snap.daily_spent ∧
      (s.restore_from_snapshot snap).last_reset_day = snap.last_reset_day ∧
      (s.restore_from_snapshot snap).price_peak = snap.price_peak ∧
      (s.restore_from_snapshot snap).price_trough = snap.price_trough ∧
      (s.restore_from_snapshot snap).config.has_bnb_balance
        = snap.has_bnb_balance ∧
      (s.restore_from_snapshot snap).config.direction = snap.direction ∧
      (s.restore_from_snapshot snap).state = snap.state) ∧
    (∀ (baseCfg : DcaConfig) (snaps : List StrategySnapshot),
      (initialUiMode baseCfg snaps
          = .restoreSession (restoreInfoList baseCfg snaps)
        ↔ ∃ sn ∈ snaps.take MAX_SLOTS,
            sn.trades ≠ [] ∨ sn.state = .running) ∧
      (initialUiMode baseCfg snaps = .normal
        ↔ ¬ ∃ sn ∈ snaps.take MAX_SLOTS,
            sn.trades ≠ [] ∨ sn.state = .running)) := by
  constructor
  · intro s snap
    refine ⟨rfl, rfl, rfl, rfl, rfl, rfl, rfl, rfl, rfl, rfl⟩
  · intro baseCfg snaps
    have key := restoreInfoLoop_any_iff baseCfg snaps 0
    simp only [Nat.sub_zero] at key
    by_cases h : ((restoreInfoLoop baseCfg snaps 0).any
        fun r => 0 < r.trade_count ∨ r.active) = true
    · have hmode : initialUiMode baseCfg snaps
          = .restoreSession (restoreInfoList baseCfg snaps) := by
        simp only [initialUiMode, restoreInfoList]
        rw [if_pos h]
      exact ⟨⟨fun _ => key.mp h, fun _ => hmode⟩,
        by simp [hmode, key.mp h]⟩
    · have hmode : initialUiMode baseCfg snaps = .normal := by
        simp only [initialUiMode, restoreInfoList]
        rw [if_neg h]
      rw [key] at h
      exact ⟨by simp [hmode, h], by simp [hmode, h]⟩

/-- Claim C7: serialization is a deterministic function of the slot
collection (equal collections produce identical output), and loading a
just-encoded snapshot array reproduces the snapshots — in particular their
trade lists — exactly. -/
theorem C7_persistence_roundtrip :
    (∀ xs ys : List StrategySnapshot,
      xs = ys → encodeSnapshots xs = encodeSnapshots ys) ∧
    (∀ xs : List StrategySnapshot, loadSnapshots (encodeSnapshots xs) = xs) ∧
    (∀ xs : List StrategySnapshot,
      (loadSnapshots (encodeSnapshots xs)).map StrategySnapshot.trades
        = xs.map StrategySnapshot.trades) := by
  have hload : ∀ xs : List StrategySnapshot,
      loadSnapshots (encodeSnapshots xs) = xs := by
    intro xs
    simp [loadSnapshots, decodeSnapshots_encodeSnapshots]
  exact ⟨fun xs ys h => h ▸ rfl, hload, fun xs => by rw [hload xs]⟩

/-- Claim C7, witness: at the concrete one-snapshot collection, encoding is
deterministic and the load of the encoded form gives the collection back. -/
theorem C7_witness :
    encodeSnapshots [demoSnap] = encodeSnapshots [demoSnap] ∧
    loadSnapshots (encodeSnapshots [demoSnap]) = [demoSnap] :=
  ⟨C7_persistence_roundtrip.1 [demoSnap] [demoSnap] rfl,
   C7_persistence_roundtrip.2.1 [demoSnap]⟩

/-- Claim C9, counterexample: decoding a record that omits the optional
fields defaults the price trough to `f64::MAX` — a finite value that the
rational `f64Max + 1` exceeds — not to +infinity as the claim states. -/
theorem C9_counterexample :
    decodeSnapshot (.obj minimalFields) = some minimalSnap ∧
    minimalSnap.price_trough < f64Max + 1 := by
  constructor
  · simp [minimalFields, minimalSnap, decodeSnapshot, lookupKey,
      requiredField, fieldOrDefault, decodeStr, decodeNum, decodeNat,
      decodeTrades, decodeList]
  · exact lt_add_one _

/-- Claim C9 (amended): a record omitting the optional fields decodes with
price peak 0, price trough `f64::MAX` (the largest finite double, the
code's "+infinity" sentinel) and lifecycle state `Idle`. -/
theorem C9_missing_field_defaults (fields : List (Key × Json))
    (sn : StrategySnapshot)
    (hp : lookupKey fields .pricePeak = Option.none)
    (ht : lookupKey fields .priceTrough = Option.none)
    (hs : lookupKey fields .state = Option.none)
    (hd : decodeSnapshot (.obj fields) = some sn) :
    sn.price_peak = 0 ∧ sn.price_trough = f64Max ∧ sn.state = .idle := by
  simp only [decodeSnapshot, requiredField, fieldOrDefault, hp, ht, hs,
    Option.bind_eq_bind, Option.bind_eq_some, Option.some_bind,
    Option.pure_def, Option.some_inj] at hd
  obtain ⟨sym, -, dir, -, tr, -, lbt, -, lbp, -, ds, -, lrd, -, b, -, hsn⟩ := hd
  subst hsn
  exact ⟨rfl, rfl, rfl⟩

/-- Claim C9, witness: the amended defaults at the concrete minimal
record. -/
theorem C9_witness :
    minimalSnap.price_peak = 0 ∧ minimalSnap.price_trough = f64Max ∧
    minimalSnap.state = .idle :=
  C9_missing_field_defaults minimalFields minimalSnap rfl rfl rfl
    (by simp [minimalFields, minimalSnap, decodeSnapshot, lookupKey,
      requiredField, fieldOrDefault, decodeStr, decodeNum, decodeNat,
      decodeTrades, decodeList])

/-- Claim C8: in every reachable registry state — after startup restore and
any sequence of slot-creating/destroying commands — the number of slots
never exceeds `MAX_SLOTS` (4); moreover creating a new strategy is refused
(the registry is unchanged) when `MAX_SLOTS` slots already exist. The
startup restore itself stops adding slots at `MAX_SLOTS`
(`steps = []` instantiates the bound to the freshly restored registry). -/
theorem C8_slot_bound (baseCfg : DcaConfig) (snaps : List StrategySnapshot)
    (steps : List RegistryStep) :
    ((steps.foldl applyStep (startupRegistry baseCfg snaps)).slots.length
        ≤ MAX_SLOTS) ∧
    (∀ (r : Registry) (cfg : DcaConfig) (now : ℤ),
      r.slots.length = MAX_SLOTS →
      applyStep r (.newStratConfirm cfg now) = r) := by
  constructor
  · have hinv : ∀ (l : List RegistryStep) (r : Registry),
        r.slots.length ≤ MAX_SLOTS →
        (l.foldl applyStep r).slots.length ≤ MAX_SLOTS := by
      intro l
      induction l with
      | nil => exact fun r h => h
      | cons st rest ih =>
        exact fun r h => ih _ (applyStep_length_le r st h)
    exact hinv steps _ (startupSlots_length_le baseCfg snaps)
  · intro r cfg now h
    simp [applyStep, h]

/-- Claim C8, witness: a registry with 4 slots refuses a fifth strategy. -/
theorem C8_witness :
    demoReg4.slots.length = MAX_SLOTS ∧
    applyStep demoReg4 (.newStratConfirm demoCfg 0) = demoReg4 :=
  ⟨rfl, (C8_slot_bound demoCfg [] []).2 demoReg4 demoCfg 0 rfl⟩

end TradingView
